import Mathlib

/-!
Verification of the Screeps teaching wrapper.

Shallow embedding of the repository's TypeScript sources:
  * `src/lib/populationManager.ts` — body selection, spawning, population upkeep;
  * `src/lib/mixins/combatMixins.ts` (`Chapter1Harvesting`) — movement, harvesting,
    energy storage wrappers;
  * `src/lib/mixins/logisticsMixins.ts` (`Chapter5Logistics`) — energy delivery;
  * `src/simpleCreepRoles.ts` (`RoleAndMemory`) — role/memory accessors.

Host game primitives (`creep.moveTo`, `creep.harvest`, `spawn.spawnCreep`,
`creep.transfer`, ...) are opaque to the wrapper: each call is modelled by an
integer result code supplied as an input, and functions additionally return the
number of host-primitive invocations they performed.
-/

set_option maxRecDepth 4000

/-- Screeps body part constants used by the repository
(`WORK`, `CARRY`, `MOVE`, `ATTACK`, `TOUGH`). -/
inductive BodyPart where
  | work
  | carry
  | move
  | attack
  | tough
  deriving DecidableEq, Repr

/-- The host's `BODYPART_COST` table (values as in the Screeps API and the
repository's test mock `screeps-mock.ts`). -/
def BODYPART_COST : BodyPart → Nat
  | .work => 100
  | .carry => 50
  | .move => 50
  | .attack => 80
  | .tough => 10

/-- Embeds `costOf` from `populationManager.ts`:
`parts.reduce((s, p) => s + (BODYPART_COST[p] || 0), 0)`. -/
def costOf (parts : List BodyPart) : Nat :=
  parts.foldl (fun s p => s + BODYPART_COST p) 0

/-- Modelled from the spec: `roles.ts` is not present under `src/`; the spec's
data model fixes `Role` to exactly three variants (harvester, worker, soldier). -/
inductive Role where
  | harvester
  | worker
  | soldier
  deriving DecidableEq, Repr

theorem costOf_foldl (l : List BodyPart) (n : Nat) :
    l.foldl (fun s p => s + BODYPART_COST p) n = n + costOf l := by
  induction l generalizing n with
  | nil => simp [costOf]
  | cons p rest ih =>
      simp only [List.foldl_cons, costOf]
      rw [ih, ih (0 + BODYPART_COST p)]
      omega

theorem costOf_append (a b : List BodyPart) :
    costOf (a ++ b) = costOf a + costOf b := by
  simp only [costOf, List.foldl_append]
  rw [costOf_foldl]
  rfl

/-- One `while` accumulation loop of `chooseBody`.  Each loop in the source has
the shape `while (body.length + step.length <= 50 && costOf(step) + costOf(body)
<= availableEnergy) pushParts(...step)`.  The loop adds `step.length ≥ 1` parts
per iteration under the guard `body.length + step.length ≤ 50`, so it runs at
most 50 iterations; the fuel argument `50` is therefore exact
(`growLoop_guard_false` below proves the guard fails at the returned body). -/
def growLoop (step : List BodyPart) : Nat → Nat → List BodyPart → List BodyPart
  | 0, _, body => body
  | fuel + 1, e, body =>
    if body.length + step.length ≤ 50 ∧ costOf step + costOf body ≤ e then
      growLoop step fuel e (body ++ step)
    else
      body

/-- Embeds `PopulationManagerClass.chooseBody` (`populationManager.ts`, lines 16–61):
per-role minimal base, then greedy accumulation loops. -/
def chooseBody (role : Role) (availableEnergy : Nat) : List BodyPart :=
  match role with
  | .harvester =>
      if costOf [.work, .carry, .move] > availableEnergy then []
      else
        growLoop [.carry] 50 availableEnergy
          (growLoop [.work, .move] 50 availableEnergy [.work, .carry, .move])
  | .worker =>
      if costOf [.work, .carry, .move] > availableEnergy then []
      else growLoop [.work, .carry, .move] 50 availableEnergy [.work, .carry, .move]
  | .soldier =>
      if costOf [.tough, .attack, .move] > availableEnergy then []
      else growLoop [.attack, .move] 50 availableEnergy [.tough, .attack, .move]

/-- The per-role fixed three-part minimal base of `chooseBody`. -/
def baseBody : Role → List BodyPart
  | .harvester => [.work, .carry, .move]
  | .worker => [.work, .carry, .move]
  | .soldier => [.tough, .attack, .move]

theorem growLoop_length_le (step : List BodyPart) (fuel e : Nat) (body : List BodyPart)
    (h : body.length ≤ 50) : (growLoop step fuel e body).length ≤ 50 := by
  induction fuel generalizing body with
  | zero => simpa [growLoop] using h
  | succ n ih =>
      rw [growLoop]
      split
      · next hg => exact ih _ (by simp only [List.length_append]; omega)
      · exact h

theorem growLoop_cost_le (step : List BodyPart) (fuel e : Nat) (body : List BodyPart)
    (h : costOf body ≤ e) : costOf (growLoop step fuel e body) ≤ e := by
  induction fuel generalizing body with
  | zero => simpa [growLoop] using h
  | succ n ih =>
      rw [growLoop]
      split
      · next hg => exact ih _ (by rw [costOf_append]; omega)
      · exact h

theorem growLoop_length_ge (step : List BodyPart) (fuel e : Nat) (body : List BodyPart) :
    body.length ≤ (growLoop step fuel e body).length := by
  induction fuel generalizing body with
  | zero => simp [growLoop]
  | succ n ih =>
      rw [growLoop]
      split
      · next hg =>
          calc body.length ≤ (body ++ step).length := by simp
            _ ≤ _ := ih _
      · exact le_refl _

/-- With fuel at least `50 - body.length` and a non-empty step, the fueled loop
returns a body at which the `while` guard is false: the fueled recursion
computes exactly the value of the source's unbounded `while` loop. -/
theorem growLoop_guard_false (step : List BodyPart) (hstep : 1 ≤ step.length)
    (fuel e : Nat) (body : List BodyPart) (hfuel : 50 - body.length ≤ fuel) :
    ¬((growLoop step fuel e body).length + step.length ≤ 50 ∧
      costOf step + costOf (growLoop step fuel e body) ≤ e) := by
  induction fuel generalizing body with
  | zero =>
      intro hg
      have : 50 ≤ body.length := by omega
      simp only [growLoop] at hg
      omega
  | succ n ih =>
      rw [growLoop]
      split
      · next hg =>
          exact ih (body ++ step) (by simp only [List.length_append]; omega)
      · next hg => exact hg

/-- Claim C2: for every role and energy budget, `chooseBody` returns at most 50 parts,
with total `BODYPART_COST` within the budget, and returns the empty list exactly
when the budget is below the cost of the role's fixed three-part base
(`[WORK, CARRY, MOVE]` for harvester and worker, `[TOUGH, ATTACK, MOVE]` for
soldier).  The accumulation loops terminate because each iteration adds at
least one part toward the 50-part ceiling (see `growLoop_guard_false`). -/
theorem chooseBody_bounded (role : Role) (e : Nat) :
    (chooseBody role e).length ≤ 50 ∧
    costOf (chooseBody role e) ≤ e ∧
    (chooseBody role e = [] ↔ e < costOf (baseBody role)) := by
  cases role with
  | harvester =>
      simp only [chooseBody, baseBody]
      split
      · next hgt => exact ⟨by simp, by simp [costOf], iff_of_true rfl hgt⟩
      · next hgt =>
          push_neg at hgt
          refine ⟨growLoop_length_le _ _ _ _ (growLoop_length_le _ _ _ _ (by decide)),
                  growLoop_cost_le _ _ _ _ (growLoop_cost_le _ _ _ _ hgt), ?_⟩
          constructor
          · intro hnil
            exfalso
            have h2 := growLoop_length_ge [BodyPart.carry] 50 e
              (growLoop [BodyPart.work, BodyPart.move] 50 e
                [BodyPart.work, BodyPart.carry, BodyPart.move])
            have h1 := growLoop_length_ge [BodyPart.work, BodyPart.move] 50 e
              [BodyPart.work, BodyPart.carry, BodyPart.move]
            rw [hnil] at h2
            simp only [List.length_nil, List.length_cons, List.length_singleton] at h1 h2
            omega
          · intro hlt
            exact absurd hlt (not_lt.mpr hgt)
  | worker =>
      simp only [chooseBody, baseBody]
      split
      · next hgt => exact ⟨by simp, by simp [costOf], iff_of_true rfl hgt⟩
      · next hgt =>
          push_neg at hgt
          refine ⟨growLoop_length_le _ _ _ _ (by decide),
                  growLoop_cost_le _ _ _ _ hgt, ?_⟩
          constructor
          · intro hnil
            exfalso
            have h1 := growLoop_length_ge [BodyPart.work, BodyPart.carry, BodyPart.move] 50 e
              [BodyPart.work, BodyPart.carry, BodyPart.move]
            rw [hnil] at h1
            simp at h1
          · intro hlt
            exact absurd hlt (not_lt.mpr hgt)
  | soldier =>
      simp only [chooseBody, baseBody]
      split
      · next hgt => exact ⟨by simp, by simp [costOf], iff_of_true rfl hgt⟩
      · next hgt =>
          push_neg at hgt
          refine ⟨growLoop_length_le _ _ _ _ (by decide),
                  growLoop_cost_le _ _ _ _ hgt, ?_⟩
          constructor
          · intro hnil
            exfalso
            have h1 := growLoop_length_ge [BodyPart.attack, BodyPart.move] 50 e
              [BodyPart.tough, BodyPart.attack, BodyPart.move]
            rw [hnil] at h1
            simp at h1
          · intro hlt
            exact absurd hlt (not_lt.mpr hgt)

/-- Claim C6: `chooseBody` is deterministic in its two arguments — its embedding is a
pure function of the role and the energy budget (and the fixed `BODYPART_COST`
table); equal inputs give identical body lists. -/
theorem chooseBody_deterministic (r r' : Role) (e e' : Nat)
    (hr : r = r') (he : e = e') : chooseBody r e = chooseBody r' e' := by
  subst hr
  subst he
  rfl

theorem chooseBody_deterministic_witness :
    chooseBody Role.worker 550 = chooseBody Role.worker 550 :=
  chooseBody_deterministic Role.worker Role.worker 550 550 rfl rfl

/-! ## Population manager (`populationManager.ts`) -/

/-- Host result code `OK`. -/
def OK : Int := 0

/-- Host result code `ERR_NOT_ENOUGH_ENERGY`. -/
def ERR_NOT_ENOUGH_ENERGY : Int := -6

/-- Host result code `ERR_BUSY`. -/
def ERR_BUSY : Int := -4

/-- Host result code `ERR_NAME_EXISTS`. -/
def ERR_NAME_EXISTS : Int := -3

/-- Host result code `ERR_NO_PATH`. -/
def ERR_NO_PATH : Int := -7

/-- Host result code `ERR_TIRED`. -/
def ERR_TIRED : Int := -11

/-- The slice of a Screeps room the population manager reads:
`room.energyAvailable` (defaulted to 0 by `?? 0` in the source). -/
structure RoomS where
  energyAvailable : Nat
  deriving DecidableEq, Repr

/-- A spawn as the population manager sees it: whether it is currently
spawning, its room, and the host's answer to the (at most one) `spawnCreep`
call the wrapper can make on it this tick. -/
structure SpawnS where
  spawning : Bool
  room : Option RoomS
  spawnCreepRes : Int
  deriving DecidableEq, Repr

/-- Host state touched by `PopulationManagerClass`: `Game.spawns` (as an
ordered list, `getPrimarySpawn` takes the first), the `role` memory slot of
each creep in `Game.creeps`, `Memory.__pmCounter` (a `Nat`; the source's
falsy check `if (!Memory.__pmCounter) Memory.__pmCounter = 0` makes the
absent and `0` cases identical), and `Game.time`. -/
structure PMState where
  spawns : List SpawnS
  creeps : List (Option Role)
  pmCounter : Nat
  time : Nat
  deriving DecidableEq, Repr

/-- Embeds the `SpawnBuildResult` union type of `populationManager.ts`. -/
inductive SpawnBuildResult where
  | SPAWNING
  | NOT_ENOUGH_ENERGY
  | SPAWN_BUSY
  | ERROR
  deriving DecidableEq, Repr

/-- Embeds the `MaintainStatus` union type of `populationManager.ts`. -/
inductive MaintainStatus where
  | OK
  | SPAWNING
  | CAPPED
  | BLOCKED
  deriving DecidableEq, Repr

/-- Modelled from the spec: the string value of each `Role` enum variant
(`roles.ts` is not under `src/`; `getQueuedSpawns` parses the role back from
`name.split("-")[0]`, so the enum value is the role's lower-case name). -/
def roleLabel : Role → String
  | .harvester => "harvester"
  | .worker => "worker"
  | .soldier => "soldier"

/-- The template literal of `buildCreep`:
`` `${role}-${Memory.__pmCounter}-${Game.time}` ``. -/
def creepName (role : Role) (counter : Nat) (time : Nat) : String :=
  roleLabel role ++ "-" ++ toString counter ++ "-" ++ toString time

/-- Embeds `PopulationManagerClass.getPrimarySpawn`: the first entry of
`Game.spawns`, or `undefined` when there are none. -/
def getPrimarySpawn (st : PMState) : Option SpawnS :=
  st.spawns.head?

/-- Embeds `PopulationManagerClass.canBuildCreep`. -/
def canBuildCreep (st : PMState) (role : Role) : Bool :=
  match getPrimarySpawn st with
  | none => false
  | some spawn =>
    if spawn.spawning then false
    else
      match spawn.room with
      | none => false
      | some room => decide (0 < (chooseBody role room.energyAvailable).length)

/-- Outcome of one `buildCreep` call: the returned label, the state after the
call, how many times the host primitive `spawn.spawnCreep` was invoked, the
name passed to it, and (instrumentation) the counter component interpolated
into that name. -/
structure BuildOutcome where
  result : SpawnBuildResult
  state : PMState
  spawnCalls : Nat
  name : Option String
  nameCounter : Option Nat
  deriving DecidableEq, Repr

/-- Embeds `PopulationManagerClass.buildCreep` (`populationManager.ts`, lines 88–108). -/
def buildCreep (st : PMState) (role : Role) : BuildOutcome :=
  match getPrimarySpawn st with
  | none => ⟨.ERROR, st, 0, none, none⟩
  | some spawn =>
    if spawn.spawning then ⟨.SPAWN_BUSY, st, 0, none, none⟩
    else
      match spawn.room with
      | none => ⟨.ERROR, st, 0, none, none⟩
      | some room =>
        let body := chooseBody role room.energyAvailable
        if body.length = 0 then ⟨.NOT_ENOUGH_ENERGY, st, 0, none, none⟩
        else
          let counter := st.pmCounter + 1
          let res := spawn.spawnCreepRes
          let label :=
            if res = OK then SpawnBuildResult.SPAWNING
            else if res = ERR_NOT_ENOUGH_ENERGY then SpawnBuildResult.NOT_ENOUGH_ENERGY
            else if res = ERR_BUSY ∨ res = ERR_NAME_EXISTS then SpawnBuildResult.SPAWN_BUSY
            else SpawnBuildResult.ERROR
          ⟨label, PMState.mk st.spawns st.creeps counter st.time, 1,
            some (creepName role counter st.time), some counter⟩

/-- Embeds `PopulationManagerClass.getCreepCount`: linear scan counting creeps whose
memory `role` equals the argument. -/
def getCreepCount (st : PMState) (role : Role) : Nat :=
  st.creeps.countP (fun m => decide (m = some role))

/-- Embeds `PopulationManagerClass.maintainCreepsAtRole` (lines 129–137). -/
def maintainCreepsAtRole (st : PMState) (role : Role) (targetCount : Nat) :
    MaintainStatus × PMState :=
  if getCreepCount st role ≥ targetCount then (.CAPPED, st)
  else if canBuildCreep st role = false then (.BLOCKED, st)
  else
    match (buildCreep st role).result with
    | .SPAWNING => (.SPAWNING, (buildCreep st role).state)
    | .NOT_ENOUGH_ENERGY => (.BLOCKED, (buildCreep st role).state)
    | .SPAWN_BUSY => (.BLOCKED, (buildCreep st role).state)
    | .ERROR => (.OK, (buildCreep st role).state)

theorem buildCreep_checks (st : PMState) (role : Role) (sp : SpawnS) (room : RoomS)
    (h1 : getPrimarySpawn st = some sp) (h2 : sp.spawning = false)
    (h3 : sp.room = some room) (h4 : (chooseBody role room.energyAvailable).length ≠ 0) :
    buildCreep st role =
      ⟨if sp.spawnCreepRes = OK then .SPAWNING
        else if sp.spawnCreepRes = ERR_NOT_ENOUGH_ENERGY then .NOT_ENOUGH_ENERGY
        else if sp.spawnCreepRes = ERR_BUSY ∨ sp.spawnCreepRes = ERR_NAME_EXISTS then .SPAWN_BUSY
        else .ERROR,
        PMState.mk st.spawns st.creeps (st.pmCounter + 1) st.time, 1,
        some (creepName role (st.pmCounter + 1) st.time), some (st.pmCounter + 1)⟩ := by
  unfold buildCreep
  rw [h1]
  simp only [h2, Bool.false_eq_true, if_false, h3]
  rw [if_neg h4]

theorem buildCreep_pmCounter_le (st : PMState) (role : Role) :
    st.pmCounter ≤ (buildCreep st role).state.pmCounter := by
  unfold buildCreep
  cases h : getPrimarySpawn st with
  | none => exact Nat.le_refl _
  | some sp =>
      simp only
      split
      · exact Nat.le_refl _
      · cases hr : sp.room with
        | none => exact Nat.le_refl _
        | some room =>
            simp only
            split
            · exact Nat.le_refl _
            · exact Nat.le_succ _

/-- Claim C3: `buildCreep` maps the host `spawnCreep` code to a fixed label
(`OK ↦ SPAWNING`, `ERR_NOT_ENOUGH_ENERGY ↦ NOT_ENOUGH_ENERGY`,
`ERR_BUSY`/`ERR_NAME_EXISTS ↦ SPAWN_BUSY`, anything else `↦ ERROR`), and
returns `ERROR` when there is no spawn or no room, `SPAWN_BUSY` when the
primary spawn is already spawning, and `NOT_ENOUGH_ENERGY` when the chosen
body is empty — in those cases without invoking `spawnCreep` at all
(`spawnCalls = 0`). -/
theorem buildCreep_result_mapping (st : PMState) (role : Role) :
    (getPrimarySpawn st = none →
      (buildCreep st role).result = .ERROR ∧ (buildCreep st role).spawnCalls = 0) ∧
    (∀ sp, getPrimarySpawn st = some sp → sp.spawning = true →
      (buildCreep st role).result = .SPAWN_BUSY ∧ (buildCreep st role).spawnCalls = 0) ∧
    (∀ sp, getPrimarySpawn st = some sp → sp.spawning = false → sp.room = none →
      (buildCreep st role).result = .ERROR ∧ (buildCreep st role).spawnCalls = 0) ∧
    (∀ sp room, getPrimarySpawn st = some sp → sp.spawning = false → sp.room = some room →
      (chooseBody role room.energyAvailable).length = 0 →
      (buildCreep st role).result = .NOT_ENOUGH_ENERGY ∧ (buildCreep st role).spawnCalls = 0) ∧
    (∀ sp room, getPrimarySpawn st = some sp → sp.spawning = false → sp.room = some room →
      (chooseBody role room.energyAvailable).length ≠ 0 →
      (buildCreep st role).spawnCalls = 1 ∧
      (sp.spawnCreepRes = OK → (buildCreep st role).result = .SPAWNING) ∧
      (sp.spawnCreepRes = ERR_NOT_ENOUGH_ENERGY →
        (buildCreep st role).result = .NOT_ENOUGH_ENERGY) ∧
      (sp.spawnCreepRes = ERR_BUSY ∨ sp.spawnCreepRes = ERR_NAME_EXISTS →
        (buildCreep st role).result = .SPAWN_BUSY) ∧
      (sp.spawnCreepRes ≠ OK → sp.spawnCreepRes ≠ ERR_NOT_ENOUGH_ENERGY →
        sp.spawnCreepRes ≠ ERR_BUSY → sp.spawnCreepRes ≠ ERR_NAME_EXISTS →
        (buildCreep st role).result = .ERROR)) := by
  refine ⟨?_, ?_, ?_, ?_, ?_⟩
  · intro h
    unfold buildCreep
    rw [h]
    exact ⟨rfl, rfl⟩
  · intro sp h1 h2
    unfold buildCreep
    rw [h1]
    simp only [h2, if_true]
    exact ⟨trivial, trivial⟩
  · intro sp h1 h2 h3
    unfold buildCreep
    rw [h1]
    simp only [h2, Bool.false_eq_true, if_false, h3]
    exact ⟨trivial, trivial⟩
  · intro sp room h1 h2 h3 h4
    unfold buildCreep
    rw [h1]
    simp only [h2, Bool.false_eq_true, if_false, h3]
    rw [if_pos h4]
    exact ⟨rfl, rfl⟩
  · intro sp room h1 h2 h3 h4
    rw [buildCreep_checks st role sp room h1 h2 h3 h4]
    refine ⟨rfl, ?_, ?_, ?_, ?_⟩
    · intro hOK
      simp only [if_pos hOK]
    · intro hN
      rw [hN]
      rfl
    · rintro (hB | hE)
      · rw [hB]
        rfl
      · rw [hE]
        rfl
    · intro hOK hN hB hE
      simp only [if_neg hOK, if_neg hN, if_neg (not_or.mpr ⟨hB, hE⟩)]

theorem buildCreep_result_mapping_witness :
    (buildCreep (PMState.mk [] [] 0 0) Role.harvester).result = .ERROR ∧
    (buildCreep (PMState.mk [] [] 0 0) Role.harvester).spawnCalls = 0 :=
  (buildCreep_result_mapping (PMState.mk [] [] 0 0) Role.harvester).1 rfl

/-- Claim C7: `Memory.__pmCounter` is monotone — `buildCreep` and
`maintainCreepsAtRole` never decrease it — and every `buildCreep` invocation
that passes the spawn-availability and energy checks increments it by exactly 1
before composing the new creep's name, so the names of two successive such
invocations carry strictly increasing counter values. -/
theorem pmCounter_monotone (st : PMState) (role role' : Role) (target : Nat) :
    st.pmCounter ≤ (buildCreep st role).state.pmCounter ∧
    st.pmCounter ≤ (maintainCreepsAtRole st role target).2.pmCounter ∧
    (∀ sp room, getPrimarySpawn st = some sp → sp.spawning = false →
      sp.room = some room → (chooseBody role room.energyAvailable).length ≠ 0 →
      (buildCreep st role).state.pmCounter = st.pmCounter + 1 ∧
      (buildCreep st role).nameCounter = some (st.pmCounter + 1) ∧
      (buildCreep st role).name = some (creepName role (st.pmCounter + 1) st.time)) ∧
    (∀ sp room sp' room',
      getPrimarySpawn st = some sp → sp.spawning = false →
      sp.room = some room → (chooseBody role room.energyAvailable).length ≠ 0 →
      getPrimarySpawn (buildCreep st role).state = some sp' → sp'.spawning = false →
      sp'.room = some room' → (chooseBody role' room'.energyAvailable).length ≠ 0 →
      ∀ c c', (buildCreep st role).nameCounter = some c →
        (buildCreep (buildCreep st role).state role').nameCounter = some c' →
        c < c') := by
  refine ⟨buildCreep_pmCounter_le st role, ?_, ?_, ?_⟩
  · unfold maintainCreepsAtRole
    split
    · exact Nat.le_refl _
    · split
      · exact Nat.le_refl _
      · have hb := buildCreep_pmCounter_le st role
        split <;> exact hb
  · intro sp room h1 h2 h3 h4
    rw [buildCreep_checks st role sp room h1 h2 h3 h4]
    exact ⟨rfl, rfl, rfl⟩
  · intro sp room sp' room' h1 h2 h3 h4 h1' h2' h3' h4' c c' hc hc'
    rw [buildCreep_checks st role sp room h1 h2 h3 h4] at hc
    rw [buildCreep_checks _ role' sp' room' h1' h2' h3' h4'] at hc'
    rw [buildCreep_checks st role sp room h1 h2 h3 h4] at hc'
    simp only [Option.some.injEq] at hc hc'
    omega

theorem pmCounter_monotone_witness :
    (buildCreep (PMState.mk [SpawnS.mk false (some (RoomS.mk 200)) OK] [] 0 5)
        Role.harvester).state.pmCounter = 0 + 1 ∧
    (buildCreep (PMState.mk [SpawnS.mk false (some (RoomS.mk 200)) OK] [] 0 5)
        Role.harvester).nameCounter = some (0 + 1) ∧
    (buildCreep (PMState.mk [SpawnS.mk false (some (RoomS.mk 200)) OK] [] 0 5)
        Role.harvester).name = some (creepName Role.harvester (0 + 1) 5) :=
  (pmCounter_monotone (PMState.mk [SpawnS.mk false (some (RoomS.mk 200)) OK] [] 0 5)
      Role.harvester Role.harvester 1).2.2.1
    (SpawnS.mk false (some (RoomS.mk 200)) OK) (RoomS.mk 200) rfl rfl rfl (by decide)

/-- Claim C8: when the current creep count is below the target and `canBuildCreep`
is true, `maintainCreepsAtRole` returns `OK` exactly when the inner
`buildCreep` returns `ERROR`; a started spawn is reported as `SPAWNING` and
both `NOT_ENOUGH_ENERGY` and `SPAWN_BUSY` are reported as `BLOCKED`, so `OK`
is never the report of a successful spawn. -/
theorem maintain_ok_iff_build_error (st : PMState) (role : Role) (target : Nat)
    (hcur : getCreepCount st role < target)
    (hcan : canBuildCreep st role = true) :
    ((maintainCreepsAtRole st role target).1 = MaintainStatus.OK ↔
      (buildCreep st role).result = SpawnBuildResult.ERROR) ∧
    ((buildCreep st role).result = SpawnBuildResult.SPAWNING →
      (maintainCreepsAtRole st role target).1 = MaintainStatus.SPAWNING) ∧
    ((buildCreep st role).result = SpawnBuildResult.NOT_ENOUGH_ENERGY ∨
      (buildCreep st role).result = SpawnBuildResult.SPAWN_BUSY →
      (maintainCreepsAtRole st role target).1 = MaintainStatus.BLOCKED) := by
  unfold maintainCreepsAtRole
  rw [if_neg (by omega), if_neg (by simp [hcan])]
  cases hres : (buildCreep st role).result <;> simp [hres]

theorem maintain_ok_iff_build_error_witness :
    ((maintainCreepsAtRole (PMState.mk [SpawnS.mk false (some (RoomS.mk 200)) 42] [] 0 5)
        Role.harvester 1).1 = MaintainStatus.OK ↔
      (buildCreep (PMState.mk [SpawnS.mk false (some (RoomS.mk 200)) 42] [] 0 5)
        Role.harvester).result = SpawnBuildResult.ERROR) ∧
    ((buildCreep (PMState.mk [SpawnS.mk false (some (RoomS.mk 200)) 42] [] 0 5)
        Role.harvester).result = SpawnBuildResult.SPAWNING →
      (maintainCreepsAtRole (PMState.mk [SpawnS.mk false (some (RoomS.mk 200)) 42] [] 0 5)
        Role.harvester 1).1 = MaintainStatus.SPAWNING) ∧
    ((buildCreep (PMState.mk [SpawnS.mk false (some (RoomS.mk 200)) 42] [] 0 5)
        Role.harvester).result = SpawnBuildResult.NOT_ENOUGH_ENERGY ∨
      (buildCreep (PMState.mk [SpawnS.mk false (some (RoomS.mk 200)) 42] [] 0 5)
        Role.harvester).result = SpawnBuildResult.SPAWN_BUSY →
      (maintainCreepsAtRole (PMState.mk [SpawnS.mk false (some (RoomS.mk 200)) 42] [] 0 5)
        Role.harvester 1).1 = MaintainStatus.BLOCKED) :=
  maintain_ok_iff_build_error (PMState.mk [SpawnS.mk false (some (RoomS.mk 200)) 42] [] 0 5)
    Role.harvester 1 (by decide) (by decide)

/-! ## Harvesting mixin (`Chapter1Harvesting` in `combatMixins.ts`) -/

/-- Modelled from the spec: `status.ts` is not under `src/`; the `ActionStatus`
enum's variants are those referenced by the wrapper methods in the mixins. -/
inductive ActionStatus where
  | MOVING
  | ALREADY_THERE
  | ALREADY_NEAR
  | NO_PATH
  | NO_TARGET
  | NOT_IN_RANGE
  | EMPTY
  | FULL
  | HARVESTING
  | TRANSFERRING
  | WITHDRAWING
  | PICKING_UP
  | TARGET_FULL
  | ERROR
  | SAFE
  | RETREATING
  | ATTACKING
  | HEALING
  | HEALTHY
  | UPGRADING
  | BUILDING
  | REPAIRING
  | NO_SITE
  deriving DecidableEq, Repr

/-- A room position (coordinates within one room; all claims are intra-room). -/
structure Pos where
  x : Int
  y : Int
  deriving DecidableEq, Repr

/-- The host's `RoomPosition.getRangeTo`: Chebyshev distance
(`max(|dx|, |dy|)`, as in the repository's test mock). -/
def getRangeTo (p q : Pos) : Nat :=
  max (p.x - q.x).natAbs (p.y - q.y).natAbs

/-- The host's `RoomPosition.inRangeTo`. -/
def inRangeTo (p q : Pos) (range : Nat) : Bool :=
  decide (getRangeTo p q ≤ range)

/-- Embeds `Chapter1Harvesting.isNear` (`combatMixins.ts`, lines 220–223):
`this.creep.pos.inRangeTo(pos, range)`. -/
def isNear (creepPos targetPos : Pos) (range : Nat) : Bool :=
  inRangeTo creepPos targetPos range

theorem isNear_zero_iff (p q : Pos) : isNear p q 0 = true ↔ p = q := by
  cases p with | mk px py =>
  cases q with | mk qx qy =>
  simp [isNear, inRangeTo, getRangeTo, Nat.max_le, Int.natAbs_eq_zero, sub_eq_zero,
    Pos.mk.injEq]

/-- Embeds `Chapter1Harvesting.moveTo` (`combatMixins.ts`, lines 229–235).  The host
pathfinder call `this.creep.moveTo(...)` is modelled by its result code
`hostMoveRes`; the second component counts host `moveTo` invocations. -/
def moveTo (creepPos targetPos : Pos) (hostMoveRes : Int) : ActionStatus × Nat :=
  if isNear creepPos targetPos 0 then (.ALREADY_THERE, 0)
  else if hostMoveRes = ERR_NO_PATH then (.NO_PATH, 1)
  else if hostMoveRes ≠ OK ∧ hostMoveRes ≠ ERR_TIRED then (.ERROR, 1)
  else (.MOVING, 1)

/-- Embeds `Chapter1Harvesting.harvest` (`combatMixins.ts`, lines 362–367).  The host
primitive `this.creep.harvest(source)` is modelled by its result code; the
second component counts host `harvest` invocations. -/
def harvest (creepPos sourcePos : Pos) (hostHarvestRes : Int) : ActionStatus × Nat :=
  if isNear creepPos sourcePos 1 = false then (.NOT_IN_RANGE, 0)
  else if hostHarvestRes = OK then (.HARVESTING, 1)
  else (.ERROR, 1)

/-- Claim C4: `moveTo` returns `ALREADY_THERE` without delegating when the creep is
already on the target position; otherwise it makes exactly one host `moveTo`
call and maps its code: `ERR_NO_PATH ↦ NO_PATH`, `OK`/`ERR_TIRED ↦ MOVING`,
anything else `↦ ERROR`. -/
theorem moveTo_result_mapping (cp tp : Pos) (res : Int) :
    (cp = tp → moveTo cp tp res = (ActionStatus.ALREADY_THERE, 0)) ∧
    (cp ≠ tp →
      (moveTo cp tp res).2 = 1 ∧
      (res = ERR_NO_PATH → (moveTo cp tp res).1 = ActionStatus.NO_PATH) ∧
      (res = OK ∨ res = ERR_TIRED → (moveTo cp tp res).1 = ActionStatus.MOVING) ∧
      (res ≠ ERR_NO_PATH → res ≠ OK → res ≠ ERR_TIRED →
        (moveTo cp tp res).1 = ActionStatus.ERROR)) := by
  constructor
  · intro h
    subst h
    simp [moveTo, isNear_zero_iff]
  · intro hne
    have hnear : isNear cp tp 0 = false := by
      cases h : isNear cp tp 0
      · rfl
      · exact absurd ((isNear_zero_iff cp tp).mp h) hne
    refine ⟨?_, ?_, ?_, ?_⟩
    · simp only [moveTo, hnear, Bool.false_eq_true, if_false]
      split
      · rfl
      · split <;> rfl
    · intro hres
      simp [moveTo, hnear, hres]
    · rintro (h | h) <;>
        simp [moveTo, hnear, h, OK, ERR_NO_PATH, ERR_TIRED]
    · intro h1 h2 h3
      simp [moveTo, hnear, h1, h2, h3]

theorem moveTo_result_mapping_witness :
    Pos.mk 0 0 ≠ Pos.mk 1 0 ∧
    (moveTo (Pos.mk 0 0) (Pos.mk 1 0) 0).2 = 1 ∧
    (moveTo (Pos.mk 0 0) (Pos.mk 1 0) 0).1 = ActionStatus.MOVING :=
  ⟨by decide,
    ((moveTo_result_mapping (Pos.mk 0 0) (Pos.mk 1 0) 0).2 (by decide)).1,
    ((moveTo_result_mapping (Pos.mk 0 0) (Pos.mk 1 0) 0).2 (by decide)).2.2.1
      (Or.inl rfl)⟩

/-- Claim C5: `harvest` is a thin conditional wrapper — `NOT_IN_RANGE` with no host
call when the creep is not within range 1 of the source, otherwise exactly one
host `harvest` call, `HARVESTING` on `OK` and `ERROR` on any other code. -/
theorem harvest_thin_wrapper (cp sp : Pos) (res : Int) :
    (isNear cp sp 1 = false →
      harvest cp sp res = (ActionStatus.NOT_IN_RANGE, 0)) ∧
    (isNear cp sp 1 = true →
      (harvest cp sp res).2 = 1 ∧
      (res = OK → (harvest cp sp res).1 = ActionStatus.HARVESTING) ∧
      (res ≠ OK → (harvest cp sp res).1 = ActionStatus.ERROR)) := by
  constructor
  · intro h
    simp [harvest, h]
  · intro h
    refine ⟨?_, ?_, ?_⟩
    · simp only [harvest, h, Bool.true_eq_false, if_false]
      split <;> rfl
    · intro hres
      simp [harvest, h, hres]
    · intro hres
      simp [harvest, h, hres]

theorem harvest_thin_wrapper_witness :
    (harvest (Pos.mk 0 0) (Pos.mk 5 5) 0 = (ActionStatus.NOT_IN_RANGE, 0)) ∧
    (harvest (Pos.mk 0 0) (Pos.mk 1 1) 0).1 = ActionStatus.HARVESTING :=
  ⟨(harvest_thin_wrapper (Pos.mk 0 0) (Pos.mk 5 5) 0).1 (by decide),
    ((harvest_thin_wrapper (Pos.mk 0 0) (Pos.mk 1 1) 0).2 (by decide)).2.1 rfl⟩

/-- A store as the wrapper reads it (`store.getUsedCapacity(RESOURCE_ENERGY)`,
`store.getFreeCapacity(RESOURCE_ENERGY)`). -/
structure StoreS where
  used : Nat
  capacity : Nat
  deriving DecidableEq, Repr

/-- Embeds `store.getUsedCapacity(RESOURCE_ENERGY)`. -/
def getUsedCapacity (s : StoreS) : Nat := s.used

/-- Embeds `store.getFreeCapacity(RESOURCE_ENERGY)`. -/
def getFreeCapacity (s : StoreS) : Nat := s.capacity - s.used

/-- The slice of a creep the harvesting/logistics wrappers read. -/
structure CreepS where
  pos : Pos
  store : StoreS
  deriving DecidableEq, Repr

/-- A spawn as `storeEnergyToBase` sees it. -/
structure SpawnObj where
  pos : Pos
  store : StoreS
  deriving DecidableEq, Repr

/-- The host's `RoomPosition.findClosestByRange`: an element of minimal
`getRangeTo` distance (first such element on ties), `null` on an empty list. -/
def findClosestByRange {α : Type} (p : Pos) (posOf : α → Pos) (ts : List α) : Option α :=
  ts.foldl
    (fun best t =>
      match best with
      | none => some t
      | some b => if getRangeTo p (posOf t) < getRangeTo p (posOf b) then some t else best)
    none

/-- Embeds `Chapter1Harvesting.storeEnergyToBase` (`combatMixins.ts`, lines 327–356).
The room argument models `this.creep.room`: `none` when the creep has no room,
otherwise the room's `FIND_MY_SPAWNS` result.  The host `creep.transfer` call
is modelled by its result code; the second component counts host `transfer`
invocations. -/
def storeEnergyToBase (creep : CreepS) (room : Option (List SpawnObj))
    (hostTransferRes : Int) : ActionStatus × Nat :=
  if getUsedCapacity creep.store = 0 then (.EMPTY, 0)
  else
    match room with
    | none => (.NO_TARGET, 0)
    | some mySpawns =>
      match findClosestByRange creep.pos (fun s => s.pos) mySpawns with
      | none => (.NO_TARGET, 0)
      | some spawn =>
        if isNear creep.pos spawn.pos 1 = false then (.NO_TARGET, 0)
        else if getFreeCapacity spawn.store < getUsedCapacity creep.store then
          (.TARGET_FULL, 0)
        else if hostTransferRes = OK then (.TRANSFERRING, 1)
        else (.ERROR, 1)

/-- Claim C9: `storeEnergyToBase` invokes the host `transfer` primitive only when the
adjacent closest spawn's free energy capacity is at least the creep's entire
carried energy; when the spawn's free capacity is smaller it returns
`TARGET_FULL` with zero host calls, so no partial transfer is attempted and
the game state is untouched in that branch. -/
theorem storeEnergyToBase_whole_load_only (creep : CreepS) (room : Option (List SpawnObj))
    (res : Int) :
    ((storeEnergyToBase creep room res).2 ≠ 0 →
      ∃ spawns spawn, room = some spawns ∧
        findClosestByRange creep.pos (fun s => s.pos) spawns = some spawn ∧
        isNear creep.pos spawn.pos 1 = true ∧
        getUsedCapacity creep.store ≤ getFreeCapacity spawn.store ∧
        0 < getUsedCapacity creep.store) ∧
    (∀ spawns spawn, room = some spawns →
      findClosestByRange creep.pos (fun s => s.pos) spawns = some spawn →
      getUsedCapacity creep.store ≠ 0 →
      isNear creep.pos spawn.pos 1 = true →
      getFreeCapacity spawn.store < getUsedCapacity creep.store →
      storeEnergyToBase creep room res = (ActionStatus.TARGET_FULL, 0)) := by
  constructor
  · intro hcalls
    by_cases h0 : getUsedCapacity creep.store = 0
    · simp [storeEnergyToBase, h0] at hcalls
    · cases hr : room with
      | none => simp [storeEnergyToBase, h0, hr] at hcalls
      | some spawns =>
        cases hf : findClosestByRange creep.pos (fun s => s.pos) spawns with
        | none => simp [storeEnergyToBase, h0, hr, hf] at hcalls
        | some spawn =>
          cases hnear : isNear creep.pos spawn.pos 1 with
          | false => simp [storeEnergyToBase, h0, hr, hf, hnear] at hcalls
          | true =>
            by_cases hfull : getFreeCapacity spawn.store < getUsedCapacity creep.store
            · simp [storeEnergyToBase, h0, hr, hf, hnear, hfull] at hcalls
            · exact ⟨spawns, spawn, rfl, hf, hnear, by omega, Nat.pos_of_ne_zero h0⟩
  · intro spawns spawn hr hf h0 hnear hfull
    simp [storeEnergyToBase, h0, hr, hf, hnear, hfull]

theorem storeEnergyToBase_whole_load_only_witness :
    storeEnergyToBase (CreepS.mk (Pos.mk 0 0) (StoreS.mk 50 50))
      (some [SpawnObj.mk (Pos.mk 0 1) (StoreS.mk 280 300)]) 0 =
      (ActionStatus.TARGET_FULL, 0) :=
  (storeEnergyToBase_whole_load_only (CreepS.mk (Pos.mk 0 0) (StoreS.mk 50 50))
      (some [SpawnObj.mk (Pos.mk 0 1) (StoreS.mk 280 300)]) 0).2
    [SpawnObj.mk (Pos.mk 0 1) (StoreS.mk 280 300)]
    (SpawnObj.mk (Pos.mk 0 1) (StoreS.mk 280 300))
    rfl (by decide) (by decide) (by decide) (by decide)

/-! ## Logistics mixin (`Chapter5Logistics` in `logisticsMixins.ts`) -/

/-- Embeds the `structureType` values the logistics code filters on. -/
inductive StructureType where
  | spawn
  | extension
  | tower
  | container
  | storage
  | other
  deriving DecidableEq, Repr

/-- A structure as the logistics wrapper reads it. -/
structure StructS where
  structureType : StructureType
  pos : Pos
  store : StoreS
  deriving DecidableEq, Repr

/-- The slice of a room `deliverEnergyToBase` reads: the `FIND_MY_SPAWNS`
result and the `FIND_STRUCTURES` result. -/
structure RoomL where
  mySpawns : List StructS
  structures : List StructS
  deriving DecidableEq, Repr

/-- Embeds `Chapter5Logistics.needsEnergyFill` (`logisticsMixins.ts`, lines 201–207):
free energy capacity is strictly positive. -/
def needsEnergyFill (s : StructS) : Bool :=
  decide (0 < getFreeCapacity s.store)

/-- Embeds `Chapter1Harvesting.transferEnergyTo` (`combatMixins.ts`, lines 373–379).
The host `creep.transfer` call is modelled by its result code; the second
component counts host `transfer` invocations. -/
def transferEnergyTo (creep : CreepS) (targetPos : Pos) (hostTransferRes : Int) :
    ActionStatus × Nat :=
  if getUsedCapacity creep.store = 0 then (.EMPTY, 0)
  else if isNear creep.pos targetPos 1 = false then (.NOT_IN_RANGE, 0)
  else if hostTransferRes = OK then (.TRANSFERRING, 1)
  else (.ERROR, 1)

/-- The `extensions` stage of `deliverEnergyToBase` (lines 168–176): closest
extension with free energy capacity. -/
def closestFreeExtension (p : Pos) (r : RoomL) : Option StructS :=
  findClosestByRange p (fun s => s.pos)
    (r.structures.filter (fun s =>
      decide (s.structureType = StructureType.extension ∧ 0 < getFreeCapacity s.store)))

/-- The `towers` stage of `deliverEnergyToBase` (lines 178–186): closest tower
with free energy capacity. -/
def closestFreeTower (p : Pos) (r : RoomL) : Option StructS :=
  findClosestByRange p (fun s => s.pos)
    (r.structures.filter (fun s =>
      decide (s.structureType = StructureType.tower ∧ 0 < getFreeCapacity s.store)))

/-- The `containers` stage of `deliverEnergyToBase` (lines 188–196): closest
container or storage with free energy capacity. -/
def closestFreeContainerOrStorage (p : Pos) (r : RoomL) : Option StructS :=
  findClosestByRange p (fun s => s.pos)
    (r.structures.filter (fun s =>
      decide ((s.structureType = StructureType.container ∨
        s.structureType = StructureType.storage) ∧ 0 < getFreeCapacity s.store)))

/-- The fall-through of `deliverEnergyToBase` after the spawn stage:
extensions, then towers, then containers/storage, then `NO_TARGET`. -/
def deliverRest (creep : CreepS) (r : RoomL) (hostTransferRes : Int) :
    ActionStatus × Nat :=
  match closestFreeExtension creep.pos r with
  | some t => transferEnergyTo creep t.pos hostTransferRes
  | none =>
    match closestFreeTower creep.pos r with
    | some t => transferEnergyTo creep t.pos hostTransferRes
    | none =>
      match closestFreeContainerOrStorage creep.pos r with
      | some t => transferEnergyTo creep t.pos hostTransferRes
      | none => (.NO_TARGET, 0)

/-- Embeds `Chapter5Logistics.deliverEnergyToBase` (`logisticsMixins.ts`, lines
154–199): empty check, then the room's first spawn when it needs energy, then
the `deliverRest` fall-through. -/
def deliverEnergyToBase (creep : CreepS) (room : Option RoomL)
    (hostTransferRes : Int) : ActionStatus × Nat :=
  if getUsedCapacity creep.store = 0 then (.EMPTY, 0)
  else
    match room with
    | none => (.NO_TARGET, 0)
    | some r =>
      match r.mySpawns.head? with
      | some spawn =>
        if needsEnergyFill spawn then transferEnergyTo creep spawn.pos hostTransferRes
        else deliverRest creep r hostTransferRes
      | none => deliverRest creep r hostTransferRes

/-- First-match choice between two candidate targets (priority order). -/
def orElseO (a b : Option StructS) : Option StructS :=
  match a with
  | some x => some x
  | none => b

/-- Refinement target written from the spec's words: the delivery target is
chosen by a fixed priority chain over exactly four structure kinds — the
room's first spawn when it has free energy capacity, then the closest
extension, tower, container-or-storage with free capacity — first match
wins. -/
def deliverTargetSpec (p : Pos) (r : RoomL) : Option StructS :=
  orElseO
    (match r.mySpawns.head? with
     | some sp => if needsEnergyFill sp then some sp else none
     | none => none)
    (orElseO (closestFreeExtension p r)
      (orElseO (closestFreeTower p r) (closestFreeContainerOrStorage p r)))

theorem deliverRest_eq (creep : CreepS) (r : RoomL) (res : Int) :
    deliverRest creep r res =
      match orElseO (closestFreeExtension creep.pos r)
        (orElseO (closestFreeTower creep.pos r)
          (closestFreeContainerOrStorage creep.pos r)) with
      | some t => transferEnergyTo creep t.pos res
      | none => (ActionStatus.NO_TARGET, 0) := by
  unfold deliverRest orElseO
  cases hE : closestFreeExtension creep.pos r with
  | some t => rfl
  | none =>
    cases hT : closestFreeTower creep.pos r with
    | some t => rfl
    | none =>
      cases hC : closestFreeContainerOrStorage creep.pos r with
      | some t => rfl
      | none => rfl

/-- Claim C1: for a creep that carries energy, `deliverEnergyToBase` selects its
target by the fixed priority chain `deliverTargetSpec` (first spawn with free
capacity, then closest free extension, tower, container/storage), delegates to
`transferEnergyTo` on the first match, returns `NO_TARGET` when no structure
qualifies, and returns `EMPTY` before any target search when the creep carries
no energy. -/
theorem deliverEnergyToBase_priority_chain (creep : CreepS) (room : Option RoomL)
    (res : Int) :
    (getUsedCapacity creep.store = 0 →
      deliverEnergyToBase creep room res = (ActionStatus.EMPTY, 0)) ∧
    (room = none → getUsedCapacity creep.store ≠ 0 →
      deliverEnergyToBase creep room res = (ActionStatus.NO_TARGET, 0)) ∧
    (∀ r, room = some r → getUsedCapacity creep.store ≠ 0 →
      deliverEnergyToBase creep room res =
        (match deliverTargetSpec creep.pos r with
         | some t => transferEnergyTo creep t.pos res
         | none => (ActionStatus.NO_TARGET, 0))) := by
  refine ⟨?_, ?_, ?_⟩
  · intro h0
    simp [deliverEnergyToBase, h0]
  · intro hr h0
    subst hr
    simp [deliverEnergyToBase, h0]
  · intro r hr h0
    subst hr
    simp only [deliverEnergyToBase, if_neg h0]
    cases hs : r.mySpawns.head? with
    | some sp =>
      cases hn : needsEnergyFill sp with
      | true => simp [deliverTargetSpec, hs, hn, orElseO]
      | false =>
        simp only [deliverTargetSpec, hs, hn, Bool.false_eq_true, if_false]
        rw [deliverRest_eq]
        rfl
    | none =>
      simp only [deliverTargetSpec, hs]
      rw [deliverRest_eq]
      rfl

theorem deliverEnergyToBase_priority_chain_witness :
    deliverEnergyToBase (CreepS.mk (Pos.mk 0 0) (StoreS.mk 50 100))
        (some (RoomL.mk []
          [StructS.mk StructureType.extension (Pos.mk 0 1) (StoreS.mk 0 100)])) 0 =
      (match deliverTargetSpec (Pos.mk 0 0)
          (RoomL.mk []
            [StructS.mk StructureType.extension (Pos.mk 0 1) (StoreS.mk 0 100)]) with
       | some t =>
          transferEnergyTo (CreepS.mk (Pos.mk 0 0) (StoreS.mk 50 100)) t.pos 0
       | none => (ActionStatus.NO_TARGET, 0)) :=
  (deliverEnergyToBase_priority_chain (CreepS.mk (Pos.mk 0 0) (StoreS.mk 50 100))
      (some (RoomL.mk []
        [StructS.mk StructureType.extension (Pos.mk 0 1) (StoreS.mk 0 100)])) 0).2.2
    (RoomL.mk [] [StructS.mk StructureType.extension (Pos.mk 0 1) (StoreS.mk 0 100)])
    rfl (by decide)

/-! ## Role and memory mixin (`RoleAndMemory` in `simpleCreepRoles.ts`) -/

/-- A value stored in a creep's memory object (the `role` slot holds a `Role`;
`remember` can store arbitrary serializable values, modelled by this small
universe). -/
inductive MemVal where
  | roleV (r : Role)
  | natV (n : Nat)
  | strV (s : String)
  deriving DecidableEq, Repr

/-- A creep's memory object: JS property assignments are modelled by
prepending, reads by first-match lookup, so the most recent write wins. -/
abbrev Mem := List (String × MemVal)

/-- First-match lookup in a memory object (property read). -/
def memGet : Mem → String → Option MemVal
  | [], _ => none
  | (k, v) :: rest, key => if k = key then some v else memGet rest key

/-- Property assignment on a memory object. -/
def memSet (m : Mem) (k : String) (v : MemVal) : Mem :=
  (k, v) :: m

namespace RoleMem

/-- Embeds `RoleAndMemory.getRole` (`simpleCreepRoles.ts`, lines 14–17): read
`memory.role`, `null` when unset.  Methods are modelled as state
transformers `Mem → result × Mem`; `getRole` contains no assignment, so its
state component is the unchanged memory. -/
def getRole (m : Mem) : Option Role × Mem :=
  (match memGet m ("role") with
   | some (MemVal.roleV r) => some r
   | _ => none,
   m)

/-- Embeds `RoleAndMemory.is` (lines 23–25): `getRole() === role`. -/
def is (m : Mem) (r : Role) : Bool × Mem :=
  (decide ((getRole m).1 = some r), m)

/-- Embeds `RoleAndMemory.setRole` (lines 31–33): `memory.role = role`. -/
def setRole (m : Mem) (r : Role) : Mem :=
  memSet m ("role") (MemVal.roleV r)

/-- Embeds `RoleAndMemory.remember` (lines 40–42): `memory[key] = value`. -/
def remember (m : Mem) (k : String) (v : MemVal) : Mem :=
  memSet m k v

/-- Embeds `RoleAndMemory.recall` (lines 49–51): read `memory[key]`, `undefined` when
missing. -/
def recall' (m : Mem) (k : String) : Option MemVal × Mem :=
  (memGet m k, m)

end RoleMem

/-- Claim C10: round-trip laws of the role/memory accessors on one creep without
interleaving writes — after `setRole r`, `getRole` returns `r` and `is r` is
true; after `remember k v`, `recall k` returns `v`; and `getRole`, `is`,
`recall` leave the memory object unmodified. -/
theorem roleMemory_roundtrip (m : Mem) (r : Role) (k : String) (v : MemVal) :
    (RoleMem.getRole (RoleMem.setRole m r)).1 = some r ∧
    (RoleMem.is (RoleMem.setRole m r) r).1 = true ∧
    (RoleMem.recall' (RoleMem.remember m k v) k).1 = some v ∧
    (RoleMem.getRole m).2 = m ∧
    (RoleMem.is m r).2 = m ∧
    (RoleMem.recall' m k).2 = m := by
  refine ⟨?_, ?_, ?_, rfl, rfl, rfl⟩
  · simp [RoleMem.getRole, RoleMem.setRole, memSet, memGet]
  · simp [RoleMem.is, RoleMem.getRole, RoleMem.setRole, memSet, memGet]
  · simp [RoleMem.recall', RoleMem.remember, memSet, memGet]
